import Mathlib

/-!
Verification development for the BEL edge pipeline.

This file gives a shallow embedding of the edge-materialization pipeline
(`bel/edge/edges.py`), the specification enhancement step
(`bel/lang/bel_specification.py`) and the computed-edge listing
(`belpy/bel.py`), and proves the specified properties about them.

Python dictionaries become Lean structures; Python truthiness on optional
string fields is modelled explicitly; machine-level helpers that live in
modules outside the sources (content hashing, namespace resolution, the
statement parser, the computed-edge rule engine) are modelled from the
specification document and marked as such in their doc comments.
-/

/-- Python truthiness of an optional string: absent and empty are falsy. -/
def truthy : Option String → Bool
  | none => false
  | some s => !s.data.isEmpty

/-- Python str() rendering of an optional string as used in f-strings:
None renders as the text None. -/
def pyStr : Option String → String
  | none => "None"
  | some s => s

/-- Python str.upper for the ASCII names used by the version gate. -/
def pyUpper (s : String) : String := String.mk (s.data.map Char.toUpper)

/-- Modelled from the spec: `bel.utils._create_hash` is not under src/.
The spec only requires a deterministic content hash of the given string
(content-addressed key: identical content yields identical key); we model
it as an executable rolling hash over the string. -/
def _create_hash (s : String) : String :=
  toString (s.data.foldl (fun h c => (h * 31 + c.toNat) % 2 ^ 32) 5381)

/-- Modelled from the spec: `bel.utils._create_hash_from_doc` is not under
src/. It hashes the canonical serialization of a document; each document
type below provides its canonical serialization, which is passed here. -/
def _create_hash_from_doc (serialized : String) : String :=
  _create_hash serialized

/-- Join a list of strings with commas (canonical list serialization). -/
def joinStrs : List String → String
  | [] => ""
  | [s] => s
  | s :: t :: rest => s ++ "," ++ joinStrs (t :: rest)

/-- Canonical serialization of an optional string field. -/
def serOpt : Option String → String
  | none => "null"
  | some s => "\"" ++ s ++ "\""

mutual
/-- BEL term tree (`bel.lang.ast`): namespace argument, string argument,
or function call with an ordered argument list. -/
inductive Term where
  | nsArg : String → String → Term
  | strArg : String → Term
  | func : String → TermArgs → Term
deriving Repr, DecidableEq
/-- Ordered argument list of a BEL function term. -/
inductive TermArgs where
  | nil : TermArgs
  | cons : Term → TermArgs → TermArgs
deriving Repr, DecidableEq
end

mutual
/-- Modelled from the spec: `to_string` of the AST classes is not under
src/. The spec defines the canonical serialization as a fixed total-order
pretty-print of the function and argument tree, namespace terms rendered
as prefix-colon-value. -/
def Term.toStr : Term → String
  | .nsArg ns v => ns ++ ":" ++ v
  | .strArg v => v
  | .func name args => name ++ "(" ++ TermArgs.toStr args ++ ")"
/-- Canonical comma-separated rendering of a function argument list. -/
def TermArgs.toStr : TermArgs → String
  | .nil => ""
  | .cons t .nil => Term.toStr t
  | .cons t (.cons u rest) => Term.toStr t ++ ", " ++ TermArgs.toStr (.cons u rest)
end

mutual
/-- Modelled from the spec: `subcomponents` of the AST classes is not
under src/. The spec describes the decomposed subcomponent list as the
leaf terms reachable from the function tree, in tree order, duplicates
retained. -/
def Term.subcomponents : Term → List String
  | .nsArg ns v => [ns ++ ":" ++ v]
  | .strArg v => [v]
  | .func _ args => TermArgs.subcomponents args
/-- Leaf subcomponents of an argument list, in tree order. -/
def TermArgs.subcomponents : TermArgs → List String
  | .nil => []
  | .cons t rest => Term.subcomponents t ++ TermArgs.subcomponents rest
end

mutual
/-- Parsed BEL statement (`BELAst`): subject term, optional relation,
optional object (a term or a nested statement). -/
inductive BELAst where
  | mk : Term → Option String → Option BelObj → BELAst
/-- Object position of a BEL statement: a term, or a nested statement. -/
inductive BelObj where
  | term : Term → BelObj
  | nested : BELAst → BelObj
end

/-- Subject of a parsed statement. -/
def BELAst.bel_subject : BELAst → Term
  | .mk s _ _ => s

/-- Relation of a parsed statement; absent for subject-only assertions. -/
def BELAst.bel_relation : BELAst → Option String
  | .mk _ r _ => r

/-- Object of a parsed statement; absent for subject-only assertions. -/
def BELAst.bel_object : BELAst → Option BelObj
  | .mk _ _ o => o

mutual
/-- Canonical string of an object position: the term rendering, or for a
nested statement the full subject-relation-object rendering. -/
def BelObj.toStr : BelObj → String
  | .term t => t.toStr
  | .nested ast => BELAst.toStr ast
/-- Canonical subject-relation-object rendering of a statement. -/
def BELAst.toStr : BELAst → String
  | .mk s r (some ob) => s.toStr ++ " " ++ pyStr r ++ " " ++ BelObj.toStr ob
  | .mk s r none => s.toStr ++ " " ++ pyStr r ++ " None"
end

/-- Object components as computed by `add_edge` (edges.py lines 42-46):
for a nested BEL assertion the inner subject subcomponents followed by the
inner object subcomponents, otherwise the object term subcomponents.
The fall-through arm covers shapes on which the Python code would raise;
they are unreachable for parsed statements. -/
def BelObj.components : BelObj → List String
  | .term t => t.subcomponents
  | .nested (.mk s _ (some (.term t))) => s.subcomponents ++ t.subcomponents
  | .nested (.mk s _ _) => s.subcomponents

/-- Nanopub annotation record: optional type, id and label fields,
mirroring the dict-with-optional-keys shape used by edges.py. -/
structure Anno where
  type : Option String
  id : Option String
  label : Option String
deriving Repr, DecidableEq

/-- Embedding of `enhance_annotations` (edges.py lines 82-96), including
its actual control flow: a continue on annotations that already carry
type, id and label (so they are never appended), backfill of a missing
id or label from the other, and a fall-through append for annotations
with a type but neither id nor label. -/
def enhance_annotations : List Anno → List Anno
  | [] => []
  | anno :: rest =>
    if !truthy anno.type then
      enhance_annotations rest
    else if truthy anno.id && truthy anno.label then
      enhance_annotations rest
    else if truthy anno.label && !truthy anno.id then
      ⟨anno.type, anno.label, anno.label⟩ :: enhance_annotations rest
    else if truthy anno.id && !truthy anno.label then
      ⟨anno.type, anno.id, anno.id⟩ :: enhance_annotations rest
    else
      anno :: enhance_annotations rest

/-- Node document built by `add_edge`: canonical name, decanonicalized
label and decomposed subcomponents. -/
structure NodeDoc where
  name : String
  label : String
  components : List String
deriving Repr, DecidableEq

/-- Canonical serialization of a node document (keys in sorted order),
fed to the content hash to derive the node key. -/
def NodeDoc.serialize (n : NodeDoc) : String :=
  "components:[" ++ joinStrs n.components ++ "],label:\"" ++ n.label
    ++ "\",name:\"" ++ n.name ++ "\""

/-- Canonical serialization of an annotation record. -/
def Anno.serialize (a : Anno) : String :=
  "id:" ++ serOpt a.id ++ ",label:" ++ serOpt a.label
    ++ ",type:" ++ serOpt a.type

/-- Canonical serialization of the annotations slot of a relation
document; the slot can be None because `orthologize_context` returns
None. -/
def serAnnos : Option (List Anno) → String
  | none => "null"
  | some l => "[" ++ joinStrs (l.map Anno.serialize) ++ "]"

/-- Relation document built by `add_edge` (edges.py lines 58-68). -/
structure RelationDoc where
  relation : String
  edge_hash : String
  nanopub_id : Option String
  edge_type : String
  subject_canon : String
  subject : String
  object_canon : String
  object : String
  annotations : Option (List Anno)
deriving Repr, DecidableEq

/-- Canonical serialization of a relation document at the moment its key
is derived in `edge_iterator` (edges.py lines 190-196): the full relation
content plus the `_from` and `_to` references, with no timestamp field
and no key field (both are attached only after hashing). -/
def RelationDoc.serializeWithRefs (r : RelationDoc) (fromRef toRef : String) : String :=
  "_from:\"" ++ fromRef ++ "\",_to:\"" ++ toRef
    ++ "\",annotations:" ++ serAnnos r.annotations
    ++ ",edge_hash:\"" ++ r.edge_hash
    ++ "\",edge_type:\"" ++ r.edge_type
    ++ "\",nanopub_id:" ++ serOpt r.nanopub_id
    ++ ",object:\"" ++ r.object
    ++ "\",object_canon:\"" ++ r.object_canon
    ++ "\",relation:\"" ++ r.relation
    ++ "\",subject:\"" ++ r.subject
    ++ "\",subject_canon:\"" ++ r.subject_canon ++ "\""

/-- The edge value appended by `add_edge`: subject node document,
relation document, object node document. -/
structure EdgeDoc where
  subject : NodeDoc
  relation : RelationDoc
  object : NodeDoc
deriving Repr, DecidableEq

/-- Outer edge wrapper: the dict `add_edge` appends has a single `edge`
key; `edge_iterator` additionally probes a top-level nanopub id that only
edges read from external files can carry. -/
structure EdgeEnvelope where
  edge : EdgeDoc
  nanopub_id : Option String
deriving Repr, DecidableEq

/-- Modelled from the spec: `bel.lang.bel_utils.convert_namespaces_str`
(decanonicalize) is not under src/. The spec says it only produces a
human-readable label for the canonical string and leaves terms with no
configured target unchanged; we model the resolver with no configured
targets, so the label equals the canonical string. -/
def convert_namespaces_str (s : String) : String := s

/-- An assertion AST in the shape `add_edge` requires: subject term,
relation string, object (term or nested statement). -/
structure FullAst where
  bel_subject : Term
  bel_relation : String
  bel_object : BelObj

/-- The edge value built by `add_edge` (edges.py lines 34-75): canonical
subject and object strings, decanonicalized labels, subcomponents, and
the edge content hash of the canonical
subject-space-relation-space-object string. -/
def make_edge (edge_ast : FullAst) (nanopub_id : Option String)
    (edge_type : String) (annotations : Option (List Anno)) : EdgeEnvelope :=
  let subj_canon := edge_ast.bel_subject.toStr
  let subj_lbl := convert_namespaces_str subj_canon
  let subj_components := edge_ast.bel_subject.subcomponents
  let obj_canon := edge_ast.bel_object.toStr
  let obj_lbl := convert_namespaces_str obj_canon
  let obj_components := edge_ast.bel_object.components
  let edge_hash := _create_hash (subj_canon ++ " " ++ edge_ast.bel_relation ++ " " ++ obj_canon)
  { edge := {
      subject := { name := subj_canon, label := subj_lbl, components := subj_components },
      relation := {
        relation := edge_ast.bel_relation,
        edge_hash := edge_hash,
        nanopub_id := nanopub_id,
        edge_type := edge_type,
        subject_canon := subj_canon,
        subject := subj_lbl,
        object_canon := obj_canon,
        object := obj_lbl,
        annotations := annotations },
      object := { name := obj_canon, label := obj_lbl, components := obj_components } },
    nanopub_id := none }

/-- Embedding of `add_edge` (edges.py lines 29-78): append the built edge
to the edge list. -/
def add_edge (edges : List EdgeEnvelope) (edge_ast : FullAst)
    (nanopub_id : Option String) (edge_type : String)
    (annotations : Option (List Anno)) : List EdgeEnvelope :=
  edges ++ [make_edge edge_ast nanopub_id edge_type annotations]

/-- A declared computed-edge rule: a rule name and the statement
synthesis it performs on a canonicalized statement. -/
structure ComputedRule where
  name : String
  gen : BELAst → List FullAst

/-- Modelled from the spec: `bel.lang.belobj.BEL.compute_edges` is not
under src/. Per the spec, a filter containing the sentinel skip yields an
empty list, an empty filter applies all declared rules, and otherwise
only rules whose name is present in the filter are applied. -/
def compute_edges (declared : List ComputedRule) (rules : List String)
    (ast : BELAst) : List FullAst :=
  if "skip" ∈ rules then []
  else
    ((declared.filter (fun r => rules.isEmpty || rules.contains r.name)).map
      (fun r => r.gen ast)).flatten

/-- External collaborators of `create_edges`, threaded as data: the
supported BEL versions (read from the versions file by
`get_bel_versions`), the statement parser, the canonicalizer, the
orthologizer, and the declared computed-edge rules of the loaded
specification. The parser returns none exactly when `bo.parse_valid` is
false. -/
structure Engine where
  versions : List String
  parse : String → Option BELAst
  canonicalize : BELAst → BELAst
  orthologize : String → BELAst → BELAst
  computedRules : List ComputedRule

/-- Declared type of a nanopub: name and BEL version. -/
structure NanopubType where
  name : String
  version : String
deriving Repr, DecidableEq

/-- One textual assertion of a nanopub: subject text, optional relation
text, optional object text. -/
structure Assertion where
  subject : String
  relation : Option String
  object : Option String
deriving Repr, DecidableEq

/-- A nanopub as consumed by `create_edges`: id, declared type, context
annotations, ordered assertions. -/
structure Nanopub where
  id : Option String
  type : NanopubType
  annotations : List Anno
  assertions : List Assertion
deriving Repr, DecidableEq

/-- Embedding of `orthologize_context` (edges.py lines 171-176). Its
docstring says: replace the Species context with the orthologize target
and add an annotation type of OrthologizedFrom. Its body is a bare pass,
so it always returns None. -/
def orthologize_context (orthologize_target : String)
    (annotations : List Anno) : Option (List Anno) :=
  none

/-- The computed-edge branch of the assertion loop in `create_edges`
(edges.py lines 160-162): computed edges are produced only when the rule
list is empty or does not contain the sentinel skip. -/
def computed_edges_for (eng : Engine) (rules : List String)
    (ast : BELAst) : List FullAst :=
  if rules = [] ∨ "skip" ∉ rules then compute_edges eng.computedRules rules ast
  else []

/-- Body of the assertion loop of `create_edges` (edges.py lines
138-166): build the statement text, parse it (an invalid parse skips the
assertion), canonicalize, optionally orthologize, emit the primary edge
only when the parsed statement carries a truthy relation, then emit the
computed edges. The arm where a truthy relation has no object covers a
shape on which the Python code would raise; it is unreachable for parsed
statements. -/
def process_assertion (eng : Engine) (rules : List String)
    (orthologize_target : Option String) (nanopub_id : Option String)
    (annotations : Option (List Anno)) (edges : List EdgeEnvelope)
    (assertion : Assertion) : List EdgeEnvelope :=
  let bel_statement :=
    if truthy assertion.relation then
      assertion.subject ++ " " ++ pyStr assertion.relation ++ " " ++ pyStr assertion.object
    else
      assertion.subject
  match eng.parse bel_statement with
  | none => edges
  | some ast0 =>
    let ast1 := eng.canonicalize ast0
    let ast2 :=
      match orthologize_target with
      | some t => if truthy (some t) then eng.orthologize t ast1 else ast1
      | none => ast1
    let edges1 :=
      if truthy ast2.bel_relation then
        match ast2.bel_object with
        | some obj =>
          add_edge edges ⟨ast2.bel_subject, pyStr ast2.bel_relation, obj⟩
            nanopub_id "primary" annotations
        | none => edges
      else edges
    (computed_edges_for eng rules ast2).foldl
      (fun es e => add_edge es e nanopub_id "computed" annotations) edges1

/-- Embedding of `create_edges` (edges.py lines 99-168): the version
gate (type name uppercased must be BEL and the declared version must be
supported, otherwise the empty list is returned), the annotation
preparation (orthologize_context when a truthy orthologize target is
given), and the assertion loop. As in the source, only the edge list is
returned; parse failures are logged, not returned. -/
def create_edges (eng : Engine) (np : Nanopub) (rules : List String)
    (orthologize_target : Option String) : List EdgeEnvelope :=
  if pyUpper np.type.name = "BEL" then
    if np.type.version ∈ eng.versions then
      let annotations : Option (List Anno) :=
        match orthologize_target with
        | some t =>
          if truthy (some t) then orthologize_context t np.annotations
          else some np.annotations
        | none => some np.annotations
      np.assertions.foldl
        (process_assertion eng rules orthologize_target np.id annotations) []
    else []
  else []

/-- A node document as yielded by `edge_iterator`: the document plus its
content-addressed `_key`. -/
structure StoreNode where
  doc : NodeDoc
  _key : String
deriving Repr, DecidableEq

/-- A relation document as yielded by `edge_iterator`: the relation
content, the `_from` and `_to` node references, the content-addressed
`_key`, the timestamp attached after key derivation, and the optional
nested metadata nanopub id. -/
structure StoreRelation where
  doc : RelationDoc
  _from : String
  _to : String
  _key : String
  edge_dt : String
  metadata_nanopub_id : Option String
deriving Repr, DecidableEq

/-- Embedding of the per-edge body of `edge_iterator` (edges.py lines
179-207) processing one edge at timestamp edge_dt: derive the subject and
object node keys from the node documents, set the `_from` and `_to`
references, derive the relation key from the relation document including
those references but not the timestamp, then attach the timestamp and,
when the envelope carries a top-level nanopub id, the nested metadata. -/
def edge_iterator_step (env : EdgeEnvelope) (edge_dt : String) :
    StoreNode × StoreNode × StoreRelation :=
  let subj := env.edge.subject
  let subj_id := _create_hash_from_doc subj.serialize
  let obj := env.edge.object
  let obj_id := _create_hash_from_doc obj.serialize
  let relation := env.edge.relation
  let fromRef := "nodes/" ++ subj_id
  let toRef := "nodes/" ++ obj_id
  let relation_id := _create_hash_from_doc (relation.serializeWithRefs fromRef toRef)
  let metadata := if truthy env.nanopub_id then env.nanopub_id else none
  (⟨subj, subj_id⟩, ⟨obj, obj_id⟩,
    ⟨relation, fromRef, toRef, relation_id, edge_dt, metadata⟩)

/-- One argument slot of a function signature in the BEL specification
document: its type tag, permitted values, and the multiple, optional and
position markers probed by dict-get with a False default (position is an
integer in the document, so its truthiness is nonzero-presence). -/
structure SigArg where
  type : String
  values : List String
  multiple : Bool
  optional : Bool
  position : Option Nat
deriving Repr, DecidableEq

/-- Python truthiness of the optional integer position marker. -/
def truthyPos : Option Nat → Bool
  | none => false
  | some n => n != 0

/-- An entry of the req or pos argument lists built by
`enhance_function_signatures`: Function and Modifier slots contribute
their permitted-values list as one entry, the string-ish slots contribute
their type tag. -/
inductive SigEntry where
  | vals : List String → SigEntry
  | typ : String → SigEntry
deriving Repr, DecidableEq

/-- The four argument classes built for each signature by
`enhance_function_signatures` (bel_specification.py lines 458-498). -/
structure SigClasses where
  req_args : List SigEntry
  pos_args : List SigEntry
  opt_args : List String
  mult_args : List String
deriving Repr, DecidableEq

/-- Embedding of the loop body of `enhance_function_signatures`
(bel_specification.py lines 465-493): route one argument slot into the
multiple, positional-optional, non-positional-optional or required class
according to its markers and type tag. -/
def classify_step (acc : SigClasses) (arg : SigArg) : SigClasses :=
  if arg.multiple then
    if arg.type ∈ ["Function", "Modifier"] then
      { acc with mult_args := acc.mult_args ++ arg.values }
    else if arg.type ∈ ["StrArgNSArg", "NSArg", "StrArg"] then
      { acc with mult_args := acc.mult_args ++ [arg.type] }
    else acc
  else if arg.optional && truthyPos arg.position then
    if arg.type ∈ ["Function", "Modifier"] then
      { acc with pos_args := acc.pos_args ++ [SigEntry.vals arg.values] }
    else if arg.type ∈ ["StrArgNSArg", "NSArg", "StrArg"] then
      { acc with pos_args := acc.pos_args ++ [SigEntry.typ arg.type] }
    else acc
  else if arg.optional then
    if arg.type ∈ ["Function", "Modifier"] then
      { acc with opt_args := acc.opt_args ++ arg.values }
    else if arg.type ∈ ["StrArgNSArg", "NSArg", "StrArg"] then
      { acc with opt_args := acc.opt_args ++ [arg.type] }
    else acc
  else
    if arg.type ∈ ["Function", "Modifier"] then
      { acc with req_args := acc.req_args ++ [SigEntry.vals arg.values] }
    else if arg.type ∈ ["StrArgNSArg", "NSArg", "StrArg"] then
      { acc with req_args := acc.req_args ++ [SigEntry.typ arg.type] }
    else acc

/-- Embedding of `enhance_function_signatures` for one signature: fold
the classifier over the ordered argument slots, starting from the four
empty classes. -/
def enhance_function_signatures (args : List SigArg) : SigClasses :=
  args.foldl classify_step ⟨[], [], [], []⟩

/-- The four argument classes a slot can be routed into. -/
inductive ArgClass where
  | req
  | pos
  | opt
  | mult
deriving Repr, DecidableEq

/-- Which class `classify_step` routes a slot into, with the same branch
structure as the source; none for a slot whose type tag is unknown (such
a slot is silently routed nowhere). -/
def classify_arg (arg : SigArg) : Option ArgClass :=
  if arg.multiple then
    if arg.type ∈ ["Function", "Modifier"] then some ArgClass.mult
    else if arg.type ∈ ["StrArgNSArg", "NSArg", "StrArg"] then some ArgClass.mult
    else none
  else if arg.optional && truthyPos arg.position then
    if arg.type ∈ ["Function", "Modifier"] then some ArgClass.pos
    else if arg.type ∈ ["StrArgNSArg", "NSArg", "StrArg"] then some ArgClass.pos
    else none
  else if arg.optional then
    if arg.type ∈ ["Function", "Modifier"] then some ArgClass.opt
    else if arg.type ∈ ["StrArgNSArg", "NSArg", "StrArg"] then some ArgClass.opt
    else none
  else
    if arg.type ∈ ["Function", "Modifier"] then some ArgClass.req
    else if arg.type ∈ ["StrArgNSArg", "NSArg", "StrArg"] then some ArgClass.req
    else none

/-- Embedding of `BEL.computed` (belpy/bel.py lines 310-337): collect the
computed-edge strings of the subject, extend with those of the object
when an object is present, and return the sorted set. The per-term
computation (belpy.tools.compute) is external to the sources, so it is a
parameter; Python sorted-of-set is modelled as insertion sort over the
deduplicated list. -/
def BEL.computed {α : Type} (compute : Option α → List String)
    (subject object : Option α) : List String :=
  let list_of_computed : List String := compute subject
  let list_of_computed :=
    match object with
    | some o => list_of_computed ++ compute (some o)
    | none => list_of_computed
  List.insertionSort (fun a b => a ≤ b) list_of_computed.dedup

/-- Fixture statement: a normal assertion used by the pipeline tests. -/
def astA1 : BELAst :=
  .mk (.strArg "a1") (some "increases") (some (.term (.strArg "o1")))

/-- Fixture statement: a second normal assertion. -/
def astA3 : BELAst :=
  .mk (.strArg "a3") (some "increases") (some (.term (.strArg "o3")))

/-- Fixture term: the subject-only activity assertion from the spec. -/
def actTerm : Term :=
  .func "act" (.cons (.func "p" (.cons (.nsArg "HGNC" "AKT1") .nil))
    (.cons (.func "ma" (.cons (.strArg "kin") .nil)) .nil))

/-- Fixture statement: the parsed subject-only assertion (no relation, no
object). -/
def astSubjOnly : BELAst := .mk actTerm none none

/-- Fixture engine: supports version 2.0.0, parses three fixed statement
texts, canonicalizes and orthologizes as the identity, and declares no
computed-edge rules. -/
def engT : Engine where
  versions := ["2.0.0"]
  parse := fun s =>
    if s = "a1 increases o1" then some astA1
    else if s = "a3 increases o3" then some astA3
    else if s = "act(p(HGNC:AKT1), ma(kin))" then some astSubjOnly
    else none
  canonicalize := fun ast => ast
  orthologize := fun _ ast => ast
  computedRules := []

/-- Fixture nanopub: a single valid subject-only assertion. -/
def npC3 : Nanopub :=
  ⟨some "np3", ⟨"BEL", "2.0.0"⟩, [],
    [⟨"act(p(HGNC:AKT1), ma(kin))", none, none⟩]⟩

/-- Fixture computed rule in the shape of the spec's activity rule: on a
statement whose subject is an act function, synthesize one statement by
the unwrap-inner-function transform (the inner term becomes the subject,
the original act term the object) with the declared relation
hasActivity. -/
def ruleActivity : ComputedRule where
  name := "activity"
  gen := fun ast =>
    match ast.bel_subject with
    | .func "act" (.cons inner _) => [⟨inner, "hasActivity", .term ast.bel_subject⟩]
    | _ => []

/-- Fixture engine: engT extended with the activity computed rule, so
subject-internal computed edges fire on the subject-only assertion. -/
def engC3r : Engine := { engT with computedRules := [ruleActivity] }

/-- Fixture nanopub: declared type name in lower case, with one valid
assertion. -/
def npC6 : Nanopub :=
  ⟨some "np6", ⟨"bel", "2.0.0"⟩, [],
    [⟨"a1", some "increases", some "o1"⟩]⟩

/-- Fixture nanopub: declared type name that is not BEL in any casing. -/
def npC6w : Nanopub := ⟨none, ⟨"XYZ", "2.0.0"⟩, [], []⟩

/-- Fixture nanopub: three assertions of which the second one fails to
parse. -/
def npC7 : Nanopub :=
  ⟨some "np7", ⟨"BEL", "2.0.0"⟩, [],
    [⟨"a1", some "increases", some "o1"⟩,
     ⟨"a2", some "increases", some "o2"⟩,
     ⟨"a3", some "increases", some "o3"⟩]⟩

/-- Fixture nanopub: one valid assertion and a species annotation, used
with an orthologize target. -/
def npC8 : Nanopub :=
  ⟨some "np8", ⟨"BEL", "2.0.0"⟩,
    [⟨some "Species", some "TAX:9606", some "human"⟩],
    [⟨"a1", some "increases", some "o1"⟩]⟩

/-- Fixture term rendered canonically as p(HGNC:AKT1), as a bare string
argument. -/
def termA : Term := .strArg "p(HGNC:AKT1)"

/-- Fixture term rendered canonically as p(HGNC:AKT1), as a function of a
namespace argument: a different tree with the same canonical string. -/
def termB : Term := .func "p" (.cons (.nsArg "HGNC" "AKT1") .nil)

/-- Fixture assertion AST built from the string-argument trees. -/
def fullA : FullAst := ⟨termA, "increases", .term (.strArg "p(HGNC:EGF)")⟩

/-- Fixture assertion AST built from the function trees, with the same
canonical subject, relation and object strings as fullA. -/
def fullB : FullAst :=
  ⟨termB, "increases", .term (.func "p" (.cons (.nsArg "HGNC" "EGF") .nil))⟩

/-- Fixture edge whose subject node document is the p(HGNC:AKT1) node. -/
def envA : EdgeEnvelope := make_edge fullA (some "np1") "primary" (some [])

/-- Fixture edge whose object node document is the p(HGNC:AKT1) node. -/
def envX : EdgeEnvelope := make_edge ⟨.strArg "x", "r", .term termA⟩ none "computed" none

/-- Fixture argument slot: an optional positional namespace argument. -/
def argW : SigArg := ⟨"NSArg", [], false, true, some 2⟩

/-- Fixture accumulator with nonempty classes, to observe preservation. -/
def accW : SigClasses := ⟨[SigEntry.typ "NSArg"], [], ["x"], ["StrArg"]⟩

/-- C1: the edge content hash is derived solely from the canonical
subject-space-relation-space-object string, so two assertion ASTs with
identical canonical subject, relation and object strings produce
identical edge hashes regardless of nanopub id, edge type or
annotations; and two edge positions carrying textually identical node
documents receive identical node keys in edge_iterator. -/
theorem add_edge_hash_determined_by_canonical_triple
    (a1 a2 : FullAst) (id1 id2 : Option String) (et1 et2 : String)
    (an1 an2 : Option (List Anno)) (e1 e2 : EdgeEnvelope) (t1 t2 : String)
    (hs : a1.bel_subject.toStr = a2.bel_subject.toStr)
    (hr : a1.bel_relation = a2.bel_relation)
    (ho : a1.bel_object.toStr = a2.bel_object.toStr) :
    e1.edge.subject = e2.edge.object →
    (make_edge a1 id1 et1 an1).edge.relation.edge_hash
      = (make_edge a2 id2 et2 an2).edge.relation.edge_hash
    ∧ (edge_iterator_step e1 t1).1._key = (edge_iterator_step e2 t2).2.1._key := by
  intro hnode
  constructor
  · show _create_hash (a1.bel_subject.toStr ++ " " ++ a1.bel_relation ++ " " ++ a1.bel_object.toStr)
      = _create_hash (a2.bel_subject.toStr ++ " " ++ a2.bel_relation ++ " " ++ a2.bel_object.toStr)
    rw [hs, hr, ho]
  · show _create_hash_from_doc e1.edge.subject.serialize
      = _create_hash_from_doc e2.edge.object.serialize
    rw [hnode]

/-- C1 witness: two distinct trees with the same canonical strings get
the same edge hash, and the subject node of one materialized edge gets
the same key as the object node of another edge carrying the same node
document. -/
theorem add_edge_hash_determined_by_canonical_triple_witness :
    fullA.bel_subject.toStr = fullB.bel_subject.toStr
    ∧ ((make_edge fullA (some "np1") "primary" (some [])).edge.relation.edge_hash
        = (make_edge fullB none "computed" none).edge.relation.edge_hash
      ∧ (edge_iterator_step envA "2020-01-01T00:00:00").1._key
        = (edge_iterator_step envX "2021-05-05T12:00:00").2.1._key) :=
  ⟨by decide,
    add_edge_hash_determined_by_canonical_triple fullA fullB (some "np1") none
      "primary" "computed" (some []) none envA envX
      "2020-01-01T00:00:00" "2021-05-05T12:00:00"
      (by decide) (by decide) (by decide) (by decide)⟩

/-- C4: evaluation of enhance_annotations at the inputs on which it
contradicts its own docstring: an annotation with type and both id and
label is dropped, an annotation with a type and neither id nor label is
kept, while the backfill case works as documented. -/
theorem enhance_annotations_drops_complete_annotations_eval :
    enhance_annotations [⟨some "Species", some "9606", some "human"⟩] = []
    ∧ enhance_annotations [⟨some "CellLine", none, none⟩]
        = [⟨some "CellLine", none, none⟩]
    ∧ enhance_annotations [⟨some "Species", some "9606", none⟩]
        = [⟨some "Species", some "9606", some "9606"⟩] := by
  decide

/-- C5: the relation document key derived by edge_iterator is the hash
of the relation content including the node references but excluding the
timestamp; the key is therefore identical across materializations at
different instants, and the timestamp is attached after key
derivation. -/
theorem edge_iterator_relation_key_excludes_timestamp
    (env : EdgeEnvelope) (t1 t2 : String) :
    (edge_iterator_step env t1).2.2._key
      = _create_hash_from_doc (env.edge.relation.serializeWithRefs
          ("nodes/" ++ _create_hash_from_doc env.edge.subject.serialize)
          ("nodes/" ++ _create_hash_from_doc env.edge.object.serialize))
    ∧ (edge_iterator_step env t1).2.2._key = (edge_iterator_step env t2).2.2._key
    ∧ (edge_iterator_step env t1).2.2.edge_dt = t1 :=
  ⟨rfl, rfl, rfl⟩

/-- C7: evaluation of create_edges on a nanopub whose second assertion
fails to parse: the failed assertion is skipped, the edges of the first
and third assertions are still produced; only the bare edge list is
returned (the validation message is logged, not returned, although the
source docstring declares an edge-list-and-messages tuple). -/
theorem create_edges_partial_failure_eval :
    (engT.parse "a2 increases o2").isNone = true
    ∧ (create_edges engT npC7 [] none).map
        (fun e => e.edge.relation.subject_canon) = ["a1", "a3"]
    ∧ (create_edges engT npC7 [] none).length = 2 := by
  decide

/-- C8: evaluation of the orthologize path: orthologize_context is a
bare pass stub returning None, so with an orthologize target the
nanopub's nonempty annotation list is replaced by None and every emitted
edge carries None annotations instead of the documented
species-replacement plus OrthologizedFrom append. -/
theorem orthologize_context_stub_eval :
    orthologize_context "TAX:10090" [⟨some "Species", some "TAX:9606", some "human"⟩] = none
    ∧ (create_edges engT npC8 [] (some "TAX:10090")).map
        (fun e => e.edge.relation.annotations) = [none]
    ∧ npC8.annotations ≠ [] := by
  decide

/-- Helper: folding computed edges over an edge list adds only edges of
type computed, so the primary-typed sublist is unchanged. -/
theorem filter_primary_foldl_computed (l : List FullAst) (idn : Option String)
    (an : Option (List Anno)) (es : List EdgeEnvelope) :
    ((l.foldl (fun acc e => add_edge acc e idn "computed" an) es).filter
        (fun e => e.edge.relation.edge_type == "primary"))
      = es.filter (fun e => e.edge.relation.edge_type == "primary") := by
  induction l generalizing es with
  | nil => rfl
  | cons e rest ih =>
    rw [List.foldl_cons, ih]
    show List.filter _ (es ++ [make_edge e idn "computed" an]) = List.filter _ es
    rw [List.filter_append]
    have h1 : List.filter (fun e => e.edge.relation.edge_type == "primary")
        [make_edge e idn "computed" an] = [] := rfl
    rw [h1, List.append_nil]

/-- Helper: every edge appended by the computed-edge fold carries edge
type computed, so the all-computed check reduces to the initial list. -/
theorem all_computed_foldl (l : List FullAst) (idn : Option String)
    (an : Option (List Anno)) (es : List EdgeEnvelope) :
    ((l.foldl (fun acc e => add_edge acc e idn "computed" an) es).all
        (fun e => e.edge.relation.edge_type == "computed"))
      = es.all (fun e => e.edge.relation.edge_type == "computed") := by
  induction l generalizing es with
  | nil => rfl
  | cons e rest ih =>
    rw [List.foldl_cons, ih]
    show List.all (es ++ [make_edge e idn "computed" an]) _ = List.all es _
    rw [List.all_append]
    have h1 : List.all [make_edge e idn "computed" an]
        (fun e => e.edge.relation.edge_type == "computed") = true := rfl
    rw [h1, Bool.and_true]

/-- C3 counterexample: for a nanopub with a single valid subject-only
assertion (relation and object absent, the parse succeeds), under a
specification declaring a subject-internal computed rule, create_edges
emits zero primary edges (not exactly one) and one computed edge (not
zero): both conjuncts of the claim fail at this input. -/
theorem subject_only_assertion_yields_no_primary_edge_cex :
    npC3.assertions.length = 1
    ∧ npC3.assertions.all (fun a => a.relation == none && a.object == none) = true
    ∧ (engC3r.parse "act(p(HGNC:AKT1), ma(kin))").isSome = true
    ∧ ((create_edges engC3r npC3 [] none).filter
        (fun e => e.edge.relation.edge_type == "primary")).length = 0
    ∧ ¬ ((create_edges engC3r npC3 [] none).filter
        (fun e => e.edge.relation.edge_type == "primary")).length = 1
    ∧ ((create_edges engC3r npC3 [] none).filter
        (fun e => e.edge.relation.edge_type == "computed")).length = 1
    ∧ ¬ ((create_edges engC3r npC3 [] none).filter
        (fun e => e.edge.relation.edge_type == "computed")).length = 0 := by
  decide

/-- C3 amended: for a nanopub with a single subject-only assertion whose
parsed statement has no truthy relation, create_edges emits no primary
edge at all (the primary edge is only added when the parsed assertion
carries a relation), and every edge it returns is a computed edge (the
computed edges derived from the subject-only statement by the active
rules, which need not be zero). -/
theorem subject_only_assertion_primary_edges_empty
    (eng : Engine) (np : Nanopub) (rules : List String) (a : Assertion)
    (hname : pyUpper np.type.name = "BEL")
    (hver : np.type.version ∈ eng.versions)
    (ha : np.assertions = [a])
    (hrel : truthy a.relation = false)
    (hast : ∀ ast, eng.parse a.subject = some ast →
      truthy (eng.canonicalize ast).bel_relation = false) :
    (create_edges eng np rules none).filter
      (fun e => e.edge.relation.edge_type == "primary") = []
    ∧ (create_edges eng np rules none).all
        (fun e => e.edge.relation.edge_type == "computed") = true := by
  constructor <;>
    (unfold create_edges
     rw [if_pos hname, if_pos hver, ha]
     rw [List.foldl_cons, List.foldl_nil]
     unfold process_assertion
     rw [hrel]
     simp only [Bool.false_eq_true, if_false]
     cases hp : eng.parse a.subject with
     | none => rfl
     | some ast0 =>
       dsimp only
       rw [hast ast0 hp]
       simp only [Bool.false_eq_true, if_false]
       first
         | (rw [filter_primary_foldl_computed]; rfl)
         | (rw [all_computed_foldl]; rfl))

/-- C3 amended witness: at the concrete subject-only nanopub, with the
activity rule declared, the primary filter is empty and every returned
edge is a computed edge. -/
theorem subject_only_assertion_primary_edges_empty_witness :
    truthy ((⟨"act(p(HGNC:AKT1), ma(kin))", none, none⟩ : Assertion)).relation = false
    ∧ ((create_edges engC3r npC3 [] none).filter
        (fun e => e.edge.relation.edge_type == "primary") = []
      ∧ (create_edges engC3r npC3 [] none).all
          (fun e => e.edge.relation.edge_type == "computed") = true) :=
  ⟨by decide,
    subject_only_assertion_primary_edges_empty engC3r npC3 [] ⟨"act(p(HGNC:AKT1), ma(kin))", none, none⟩
      (by decide) (by decide) rfl (by decide)
      (by
        intro ast h
        have hp : engC3r.parse "act(p(HGNC:AKT1), ma(kin))" = some astSubjOnly := rfl
        rw [hp] at h
        injection h with h2
        subst h2
        rfl)⟩

/-- C6 counterexample: a nanopub whose declared type name is the lower
case bel, which is not the string BEL, still passes the gate (the code
uppercases before comparing) and produces a nonempty edge list. -/
theorem version_gate_case_insensitive_cex :
    npC6.type.name ≠ "BEL" ∧ create_edges engT npC6 [] none ≠ [] := by
  decide

/-- C6 amended: for every nanopub whose declared type name uppercased is
not BEL (the comparison is case-insensitive) or whose declared version is
not among the supported versions, create_edges processes no assertions
and returns the empty edge list. -/
theorem create_edges_version_gate_empty
    (eng : Engine) (np : Nanopub) (rules : List String)
    (ot : Option String)
    (h : pyUpper np.type.name ≠ "BEL" ∨ np.type.version ∉ eng.versions) :
    create_edges eng np rules ot = [] := by
  unfold create_edges
  rcases h with h | h
  · rw [if_neg h]
  · by_cases hb : pyUpper np.type.name = "BEL"
    · rw [if_pos hb, if_neg h]
    · rw [if_neg hb]

/-- C6 amended witness: a nanopub with declared type name XYZ yields an
empty edge list. -/
theorem create_edges_version_gate_empty_witness :
    pyUpper npC6w.type.name ≠ "BEL" ∧ create_edges engT npC6w [] none = [] :=
  ⟨by decide, create_edges_version_gate_empty engT npC6w [] none (Or.inl (by decide))⟩

/-- C2: the computed-edge branch of create_edges has exactly the
specified rule-filter semantics: a filter containing the sentinel skip
contributes no computed edges, an empty filter applies every declared
rule, and any other filter applies exactly the declared rules whose name
is in the filter. -/
theorem create_edges_rule_filter_semantics
    (eng : Engine) (ast : BELAst) (rules : List String) :
    computed_edges_for eng rules ast =
      if "skip" ∈ rules then []
      else if rules = [] then
        (eng.computedRules.map (fun r => r.gen ast)).flatten
      else
        ((eng.computedRules.filter (fun r => rules.contains r.name)).map
          (fun r => r.gen ast)).flatten := by
  by_cases hskip : "skip" ∈ rules
  · have hne : rules ≠ [] := by rintro rfl; cases hskip
    rw [if_pos hskip]
    unfold computed_edges_for
    rw [if_neg]
    simp [hskip, hne]
  · rw [if_neg hskip]
    unfold computed_edges_for compute_edges
    rw [if_pos (Or.inr hskip), if_neg hskip]
    by_cases hempty : rules = []
    · subst hempty
      simp
    · rw [if_neg hempty]
      have hE : rules.isEmpty = false := by
        cases rules with
        | nil => exact absurd rfl hempty
        | cons x xs => rfl
      simp [hE]

/-- C9: every argument slot whose type tag is one of the five declared
slot types is routed by the signature-enhancement loop into exactly one
of the four classes (required, positional-optional,
non-positional-optional, multiple): its class is uniquely determined, and
the step leaves the other three class lists unchanged. -/
theorem enhance_function_signatures_classifies_once
    (arg : SigArg) (acc : SigClasses)
    (h : arg.type ∈ ["Function", "Modifier", "StrArgNSArg", "NSArg", "StrArg"]) :
    ∃ c : ArgClass, classify_arg arg = some c
      ∧ (∀ d : ArgClass, classify_arg arg = some d → d = c)
      ∧ (c ≠ ArgClass.req → (classify_step acc arg).req_args = acc.req_args)
      ∧ (c ≠ ArgClass.pos → (classify_step acc arg).pos_args = acc.pos_args)
      ∧ (c ≠ ArgClass.opt → (classify_step acc arg).opt_args = acc.opt_args)
      ∧ (c ≠ ArgClass.mult → (classify_step acc arg).mult_args = acc.mult_args) := by
  obtain ⟨ty, vals, m, o, p⟩ := arg
  simp only [List.mem_cons, List.not_mem_nil, or_false] at h
  have huniq : ∀ (x : Option ArgClass) (c : ArgClass), x = some c →
      (∀ d : ArgClass, x = some d → d = c) := by
    rintro x c rfl d hd
    exact (Option.some_inj.mp hd).symm
  rcases h with rfl | rfl | rfl | rfl | rfl <;>
    cases m <;> cases o <;> cases hp : truthyPos p <;>
    first
      | (refine ⟨ArgClass.mult, ?_, huniq _ _ ?_, ?_, ?_, ?_, ?_⟩ <;>
          first
            | (intro hne; first | exact absurd rfl hne | (simp [classify_step, hp]; done))
            | (simp [classify_arg, hp]; done))
      | (refine ⟨ArgClass.pos, ?_, huniq _ _ ?_, ?_, ?_, ?_, ?_⟩ <;>
          first
            | (intro hne; first | exact absurd rfl hne | (simp [classify_step, hp]; done))
            | (simp [classify_arg, hp]; done))
      | (refine ⟨ArgClass.opt, ?_, huniq _ _ ?_, ?_, ?_, ?_, ?_⟩ <;>
          first
            | (intro hne; first | exact absurd rfl hne | (simp [classify_step, hp]; done))
            | (simp [classify_arg, hp]; done))
      | (refine ⟨ArgClass.req, ?_, huniq _ _ ?_, ?_, ?_, ?_, ?_⟩ <;>
          first
            | (intro hne; first | exact absurd rfl hne | (simp [classify_step, hp]; done))
            | (simp [classify_arg, hp]; done))

/-- C9 witness: a concrete optional positional namespace slot is routed
into the positional-optional class only, leaving the other classes of a
concrete nonempty accumulator unchanged. -/
theorem enhance_function_signatures_classifies_once_witness :
    argW.type ∈ ["Function", "Modifier", "StrArgNSArg", "NSArg", "StrArg"]
    ∧ ∃ c : ArgClass, classify_arg argW = some c
      ∧ (∀ d : ArgClass, classify_arg argW = some d → d = c)
      ∧ (c ≠ ArgClass.req → (classify_step accW argW).req_args = accW.req_args)
      ∧ (c ≠ ArgClass.pos → (classify_step accW argW).pos_args = accW.pos_args)
      ∧ (c ≠ ArgClass.opt → (classify_step accW argW).opt_args = accW.opt_args)
      ∧ (c ≠ ArgClass.mult → (classify_step accW argW).mult_args = accW.mult_args) :=
  ⟨by decide, enhance_function_signatures_classifies_once argW accW (by decide)⟩

/-- C10: for every AST, the computed-edge string list returned by
BEL.computed contains no duplicate entries and is sorted in ascending
string order, so its order is deterministic for a given input. -/
theorem BEL_computed_sorted_nodup {α : Type} (compute : Option α → List String)
    (subject object : Option α) :
    (BEL.computed compute subject object).Nodup
    ∧ List.Sorted (fun a b : String => a ≤ b) (BEL.computed compute subject object) := by
  unfold BEL.computed
  constructor
  · exact ((List.perm_insertionSort _ _).nodup_iff).mpr (List.nodup_dedup _)
  · exact List.sorted_insertionSort _ _
